import Mathlib

/-!
Verification of the joystick / remote-control front end (`src/main.js`,
final revision: the second variant in the file, the one the line references
of the specification point at).

The JavaScript module is a set of top-level mutable variables mutated by
event handlers and timer callbacks.  We embed it as a state record
`AppState` mirroring those variables, and one Lean function per source
function, each mapping a state to a state.  Transport calls
(`invoke("send_joystick_data")`, `invoke("send_lifting_arm_value")`,
`invoke("send_arm_command")`) are recorded in an append-only ledger field
`sent`; `addLog` calls are recorded in `logs`.  Sends are modelled as
succeeding immediately (the specification's resend and coalescing laws are
stated under that assumption).

Numeric modelling: protocol values are integers (`ℤ`).  Screen coordinates
are rationals (`ℚ`); the floating-point geometry of `handleJoystickMove`
(`Math.sqrt`, `Math.atan2`, `Math.cos`, `Math.sin`) is idealised over `ℝ`,
with `Math.atan2 y x` modelled as `Complex.arg ⟨x, y⟩` and
`Math.round x` as `round x = ⌊x + 1/2⌋`, which agrees with JavaScript
`Math.round` (half-up) at every argument.
-/

/-- Log severity classes passed to `addLog` (the message text is irrelevant
to the claims; only the class is recorded). -/
inductive LogType where
  | info
  | success
  | warning
  | error
  deriving Repr, DecidableEq

/-- Discrete arm commands of `send_arm_command`. -/
inductive ArmCommand where
  | grab
  | release
  | throwArm
  deriving Repr, DecidableEq

/-- One transport call (`invoke`) of the control path. -/
inductive Send where
  | joystick (x y : ℤ)
  | lifting (v : ℤ)
  | armCommand (c : ArmCommand)
  deriving Repr, DecidableEq

/-- A touch point of a touch event: `identifier`, `clientX`, `clientY`. -/
structure Touch where
  identifier : ℕ
  clientX : ℚ
  clientY : ℚ
  deriving Repr, DecidableEq

/-- The result of `joystickBase.getBoundingClientRect()`. -/
structure Rect where
  left : ℚ
  top : ℚ
  width : ℚ
  height : ℚ
  deriving Repr, DecidableEq

/-- `rect.right` of a DOM rect: `left + width`. -/
def Rect.right (r : Rect) : ℚ := r.left + r.width

/-- `rect.bottom` of a DOM rect: `top + height`. -/
def Rect.bottom (r : Rect) : ℚ := r.top + r.height

/-- The module-level mutable variables of `main.js`, plus the two ledgers
`sent` (transport calls made) and `logs` (log entries appended). -/
structure AppState where
  isConnected : Bool
  controllerUsable : Bool
  /-- `pollIntervalId !== null` -/
  pollActive : Bool
  /-- `sendIntervalId !== null` -/
  sendActive : Bool
  joystickActive : Bool
  currentX : ℤ
  currentY : ℤ
  /-- `liftingPendingValue` (`null` = `none`) -/
  liftingPendingValue : Option ℤ
  /-- `liftingSendTimeoutId !== null` -/
  liftingTimerArmed : Bool
  /-- `primaryTouchId` (`null` = `none`) -/
  primaryTouchId : Option ℕ
  /-- `activeTouches` map, in insertion order: (identifier, x, y) -/
  activeTouches : List (ℕ × ℚ × ℚ)
  /-- ledger of transport calls, chronological -/
  sent : List Send
  /-- ledger of log entries, chronological -/
  logs : List LogType
  deriving Repr, DecidableEq

/-- `JOYSTICK_ZERO_VALUE = 0x7F` -/
def JOYSTICK_ZERO_VALUE : ℤ := 127

/-- `DEBOUNCE_MS = 120` in `bindInstantButton`. -/
def DEBOUNCE_MS : ℤ := 120

/-- `addLog(message, type)`: appends a log entry. -/
def addLog (t : LogType) (s : AppState) : AppState :=
  { s with logs := s.logs ++ [t] }

/-- `resetJoystick()`: recenters `currentX`/`currentY` to
`JOYSTICK_ZERO_VALUE` (the style/transition statements are UI only). -/
def resetJoystick (s : AppState) : AppState :=
  { s with currentX := JOYSTICK_ZERO_VALUE, currentY := JOYSTICK_ZERO_VALUE }

/-- `positionToValue(position, max)`:
`Math.max(0, Math.min(255, Math.round((position + 1) * 127.5)))`,
over `ℚ` (`127.5 = 255/2`).  The unused second parameter is dropped. -/
def positionToValue (position : ℚ) : ℤ :=
  max 0 (min 255 (round ((position + 1) * (255 / 2))))

/-- The same computation as `positionToValue`, over `ℝ`: the geometry of
`handleJoystickMove` produces real normalized coordinates. -/
noncomputable def positionToValueReal (position : ℝ) : ℤ :=
  max 0 (min 255 (round ((position + 1) * (255 / 2))))

/-- `const stickRadius = (rect.width / 2) * 0.11` (line 519). -/
def stickRadius (width : ℚ) : ℚ := (width / 2) * (11 / 100)

/-- `const maxRadius = (rect.width / 2) - stickRadius` (line 520). -/
def maxRadius (width : ℚ) : ℚ := width / 2 - stickRadius width

/-- `Math.atan2(y, x)`, modelled as the argument of the complex number
`x + y·i`. -/
noncomputable def atan2 (y x : ℝ) : ℝ := Complex.arg ⟨x, y⟩

/-- The numeric pipeline of `handleJoystickMove(clientX, clientY)`
(lines 504-545): center, delta, radial clamp via `atan2`/`cos`/`sin`,
normalization, and encoding of both axes.  Returns the new
`(currentX, currentY)`. -/
noncomputable def joystickAxesFrom (r : Rect) (clientX clientY : ℚ) : ℤ × ℤ :=
  let centerX : ℚ := r.left + r.width / 2
  let centerY : ℚ := r.top + r.height / 2
  let deltaX : ℝ := ((clientX - centerX : ℚ) : ℝ)
  let deltaY : ℝ := ((clientY - centerY : ℚ) : ℝ)
  let maxR : ℝ := ((maxRadius r.width : ℚ) : ℝ)
  let distance : ℝ := Real.sqrt (deltaX * deltaX + deltaY * deltaY)
  let angle : ℝ := atan2 deltaY deltaX
  let dX : ℝ := if maxR < distance then Real.cos angle * maxR else deltaX
  let dY : ℝ := if maxR < distance then Real.sin angle * maxR else deltaY
  (positionToValueReal (dX / maxR), positionToValueReal (dY / maxR))

/-- `handleJoystickMove(clientX, clientY)` as a state update: recomputes
`currentX`/`currentY` from the pointer position.  The final revision has
no gate on `controllerUsable` or `isConnected`, and makes no transport
call. -/
noncomputable def handleJoystickMove (r : Rect) (clientX clientY : ℚ) (s : AppState) : AppState :=
  { s with
    currentX := (joystickAxesFrom r clientX clientY).1
    currentY := (joystickAxesFrom r clientX clientY).2 }

/-- `startJoystick(event)` (lines 548-560): sets `joystickActive` and
recomputes the axes from the event position; no connection/usability
gate in the final revision. -/
noncomputable def startJoystick (r : Rect) (clientX clientY : ℚ) (s : AppState) : AppState :=
  handleJoystickMove r clientX clientY { s with joystickActive := true }

/-- `moveJoystick(event)`: recomputes axes only while `joystickActive`. -/
noncomputable def moveJoystick (r : Rect) (clientX clientY : ℚ) (s : AppState) : AppState :=
  if s.joystickActive then handleJoystickMove r clientX clientY s else s

/-- `stopJoystick()` (lines 576-584): if active, deactivate and recenter. -/
def stopJoystick (s : AppState) : AppState :=
  if s.joystickActive then resetJoystick { s with joystickActive := false } else s

/-- `isTouchInJoystick(clientX, clientY)` (lines 587-593): bounding-rect
hit test. -/
def isTouchInJoystick (r : Rect) (clientX clientY : ℚ) : Bool :=
  decide (r.left ≤ clientX) && decide (clientX ≤ r.right) &&
    decide (r.top ≤ clientY) && decide (clientY ≤ r.bottom)

/-- `activeTouches.set(id, {x, y})`: update in place if the key exists,
otherwise append (JavaScript `Map` preserves insertion order). -/
def setTouch (id : ℕ) (x y : ℚ) : List (ℕ × ℚ × ℚ) → List (ℕ × ℚ × ℚ)
  | [] => [(id, x, y)]
  | e :: rest => if e.1 = id then (id, x, y) :: rest else e :: setTouch id x y rest

/-- `activeTouches.delete(id)`. -/
def deleteTouch (id : ℕ) (l : List (ℕ × ℚ × ℚ)) : List (ℕ × ℚ × ℚ) :=
  l.filter (fun e => !(e.1 == id))

/-- The registration loop of `handleTouchStart`: every touch of
`event.touches` whose position is inside the joystick rect is stored in
`activeTouches`. -/
def registerTouches (r : Rect) (touches : List Touch) (s : AppState) : AppState :=
  touches.foldl
    (fun st t =>
      if isTouchInJoystick r t.clientX t.clientY then
        { st with activeTouches := setTouch t.identifier t.clientX t.clientY st.activeTouches }
      else st)
    s

/-- `handleTouchStart(event)` (lines 596-622): register in-rect touches;
then, only if no primary is assigned, the first touch of `event.touches`
inside the rect becomes primary and `startJoystick` runs from it. -/
noncomputable def handleTouchStart (r : Rect) (touches : List Touch) (s : AppState) : AppState :=
  let s1 := registerTouches r touches s
  match s1.primaryTouchId with
  | some _ => s1
  | none =>
    match touches.find? (fun t => isTouchInJoystick r t.clientX t.clientY) with
    | some t => startJoystick r t.clientX t.clientY { s1 with primaryTouchId := some t.identifier }
    | none => s1

/-- `handleTouchMove(event)` (lines 625-644): if a primary is assigned and
the joystick is active, look up the primary touch in `event.touches`; the
axes are recomputed only when its current position passes the
`isTouchInJoystick` hit test again. -/
noncomputable def handleTouchMove (r : Rect) (touches : List Touch) (s : AppState) : AppState :=
  match s.primaryTouchId with
  | none => s
  | some pid =>
    if s.joystickActive then
      match touches.find? (fun t => t.identifier == pid) with
      | none => s
      | some t =>
        if isTouchInJoystick r t.clientX t.clientY then
          handleJoystickMove r t.clientX t.clientY s
        else s
    else s

/-- The promotion scan of `handleTouchEnd`: the first touch of the
remaining `event.touches` whose current position is inside the rect
becomes primary and `startJoystick` runs from it. -/
noncomputable def promoteRemaining (r : Rect) (touches : List Touch) (s : AppState) : AppState :=
  match touches.find? (fun t => isTouchInJoystick r t.clientX t.clientY) with
  | some t => startJoystick r t.clientX t.clientY { s with primaryTouchId := some t.identifier }
  | none => s

/-- One iteration of the `changedTouches` loop of `handleTouchEnd`:
delete the ended touch; if it was the primary, clear the primary, stop the
joystick (recenters), then run the promotion scan. -/
noncomputable def endOneTouch (r : Rect) (touches : List Touch) (s : AppState) (t : Touch) : AppState :=
  let s1 := { s with activeTouches := deleteTouch t.identifier s.activeTouches }
  if s1.primaryTouchId = some t.identifier then
    promoteRemaining r touches (stopJoystick { s1 with primaryTouchId := none })
  else s1

/-- `handleTouchEnd(event)` (lines 647-673): iterate over
`event.changedTouches` with the remaining `event.touches` fixed. -/
noncomputable def handleTouchEnd (r : Rect) (changedTouches touches : List Touch) (s : AppState) : AppState :=
  changedTouches.foldl (endOneTouch r touches) s

/-- `sendJoystickData()` (lines 693-704): no-op unless connected and
usable; otherwise sends the current axes (send modelled as succeeding). -/
def sendJoystickData (s : AppState) : AppState :=
  if s.isConnected && s.controllerUsable then
    { s with sent := s.sent ++ [Send.joystick s.currentX s.currentY] }
  else s

/-- One firing of the `SEND_INTERVAL` timer: it exists only while
`sendIntervalId` is set, and runs `sendJoystickData`. -/
def sendTick (s : AppState) : AppState :=
  if s.sendActive then sendJoystickData s else s

/-- `n` consecutive firings of the send interval with no other input. -/
def sendTicks : ℕ → AppState → AppState
  | 0, s => s
  | n + 1, s => sendTicks n (sendTick s)

/-- `queueLiftingSend(value)` (lines 707-722): no-op unless connected and
usable; records the pending value (overwriting) and arms the 40 ms
one-shot timer if it is not armed. -/
def queueLiftingSend (v : ℤ) (s : AppState) : AppState :=
  if s.isConnected && s.controllerUsable then
    let s1 := { s with liftingPendingValue := some v }
    if s1.liftingTimerArmed then s1 else { s1 with liftingTimerArmed := true }
  else s

/-- Expiry of the `queueLiftingSend` timer (the callback at lines
713-721): disarm, and if a pending value exists, clear it and send it via
`sendLiftingArmValue` — with no connection or usability check. -/
def liftingTimerFire (s : AppState) : AppState :=
  if s.liftingTimerArmed then
    let s1 := { s with liftingTimerArmed := false }
    match s1.liftingPendingValue with
    | none => s1
    | some v => { s1 with liftingPendingValue := none, sent := s1.sent ++ [Send.lifting v] }
  else s

/-- `updateControllerStatus(usable)` (lines 435-462): set the flag; when
usable, ensure the send interval runs; when unusable, stop the send
interval and recenter the joystick.  (Slider enable/disable is UI only.) -/
def updateControllerStatus (usable : Bool) (s : AppState) : AppState :=
  if usable then
    { s with controllerUsable := true, sendActive := true }
  else
    resetJoystick { s with controllerUsable := false, sendActive := false }

/-- `pollControllerStatus()` (lines 734-744): no-op while disconnected;
a successful poll reports `some usable`, a failed poll is `none` and is
handled by forcing the controller unusable. -/
def pollControllerStatus (result : Option Bool) (s : AppState) : AppState :=
  if s.isConnected then
    match result with
    | some usable => updateControllerStatus usable s
    | none => updateControllerStatus false s
  else s

/-- `startPolling()` (lines 747-752). -/
def startPolling (s : AppState) : AppState :=
  if s.pollActive then s else addLog LogType.info { s with pollActive := true }

/-- `stopPolling()` (lines 755-766): clears the poll interval (logging if
it was set) and the send interval.  It does not touch
`liftingSendTimeoutId` or `liftingPendingValue`. -/
def stopPolling (s : AppState) : AppState :=
  let s1 := if s.pollActive then addLog LogType.info { s with pollActive := false } else s
  { s1 with sendActive := false }

/-- `updateConnectionStatus(connected)` (lines 410-432): set the flag; on
connect start polling, on disconnect stop polling and force the
controller unusable. -/
def updateConnectionStatus (connected : Bool) (s : AppState) : AppState :=
  if connected then startPolling { s with isConnected := true }
  else updateControllerStatus false (stopPolling { s with isConnected := false })

/-- `grabArm()` (lines 826-839): while disconnected, log a warning and
make no transport call; otherwise log, send the grab command (modelled as
succeeding), and log success.  `controllerUsable` is not consulted. -/
def grabArm (s : AppState) : AppState :=
  if s.isConnected then
    addLog LogType.success
      { addLog LogType.info s with
        sent := (addLog LogType.info s).sent ++ [Send.armCommand ArmCommand.grab] }
  else addLog LogType.warning s

/-- The debounce step of `doAction` in `bindInstantButton`
(lines 370-377): given the current time and the stored
`lastTriggerTime`, returns whether the action fires and the new
`lastTriggerTime`. -/
def doActionStep (now lastTriggerTime : ℤ) : Bool × ℤ :=
  if now - lastTriggerTime < DEBOUNCE_MS then (false, lastTriggerTime)
  else (true, now)

/-- A session state right after the primary contact is released while
connected and usable: axes recentered by `resetJoystick`, ledgers empty. -/
def releasedState : AppState :=
  { isConnected := true
    controllerUsable := true
    pollActive := true
    sendActive := true
    joystickActive := false
    currentX := 127
    currentY := 127
    liftingPendingValue := none
    liftingTimerArmed := false
    primaryTouchId := none
    activeTouches := []
    sent := []
    logs := [] }

/-- A connected, usable session with no pending lifting value. -/
def connectedState : AppState := releasedState

/-- A session taken down by `updateConnectionStatus(false)`. -/
def disconnectedState : AppState :=
  { connectedState with isConnected := false }

/-- A connected session whose controller is flagged unusable. -/
def unusableState : AppState := { connectedState with controllerUsable := false }

/-- A disconnected session that still carries an armed lifting timer and a
pending value (the situation left behind by a disconnect racing the 40 ms
window). -/
def stalePendingState : AppState :=
  { disconnectedState with liftingTimerArmed := true, liftingPendingValue := some 9 }

/-- The joystick base rect used in concrete scenarios: a 200×200 square at
the origin. -/
def baseRect : Rect := { left := 0, top := 0, width := 200, height := 200 }

/-- A session where touch 1 is the primary contact and the axes sit at the
center. -/
def primaryState : AppState :=
  { releasedState with
    joystickActive := true
    primaryTouchId := some 1
    activeTouches := [(1, 100, 100)] }

/-- A session with primary touch 1 and a second touch 2 that was
registered from inside the joystick rect (start position (100, 150)). -/
def handoffState : AppState :=
  { primaryState with activeTouches := [(1, 100, 100), (2, 100, 150)] }

/-! ## Helper lemmas -/

/-- `registerTouches` only changes the `activeTouches` field. -/
theorem registerTouches_frame (r : Rect) (ts : List Touch) (s : AppState) :
    registerTouches r ts s = { s with activeTouches := (registerTouches r ts s).activeTouches } := by
  induction ts generalizing s with
  | nil => rfl
  | cons t ts ih =>
    by_cases h : isTouchInJoystick r t.clientX t.clientY
    · simpa [registerTouches, List.foldl, h] using
        ih { s with activeTouches := setTouch t.identifier t.clientX t.clientY s.activeTouches }
    · simpa [registerTouches, List.foldl, h] using ih s

/-! ## Claims -/

/-- C1, counterexample: after the primary contact is released (axes at the
center, connected, usable), six consecutive send-interval firings emit six
center sends, not the five the claim predicts — there is no zero-resend
budget in the code, so the dispatcher never goes silent. -/
theorem C1_counterexample :
    (sendTicks 6 releasedState).sent = List.replicate 6 (Send.joystick 127 127) ∧
    (sendTicks 6 releasedState).sent ≠ List.replicate 5 (Send.joystick 127 127) := by
  decide

/-- C1, amended: on every firing of the send interval while the session is
Connected and Usable, a send of the current axes occurs unconditionally —
the code keeps no last-sent pair and no zero-resend budget, so after
release the center pair is resent on every tick indefinitely. -/
theorem C1_everyTickSends (s : AppState) (n : ℕ)
    (hc : s.isConnected = true) (hu : s.controllerUsable = true) (ha : s.sendActive = true) :
    (sendTicks n s).sent = s.sent ++ List.replicate n (Send.joystick s.currentX s.currentY) := by
  induction n generalizing s with
  | zero => simp [sendTicks]
  | succ n ih =>
    have hstep : sendTick s = { s with sent := s.sent ++ [Send.joystick s.currentX s.currentY] } := by
      simp [sendTick, sendJoystickData, hc, hu, ha]
    rw [sendTicks, hstep, ih { s with sent := s.sent ++ [Send.joystick s.currentX s.currentY] } hc hu ha]
    simp [List.replicate_succ]

/-- Witness for C1_everyTickSends at a concrete released session. -/
theorem C1_everyTickSends_witness :
    (sendTicks 2 releasedState).sent
      = releasedState.sent ++ List.replicate 2 (Send.joystick releasedState.currentX releasedState.currentY) :=
  C1_everyTickSends releasedState 2 rfl rfl rfl

/-- C2, counterexample: a lifting value queued while connected and usable
is delivered by the timer even after a disconnect that occurs before the
40 ms expiry — `stopPolling`/`updateControllerStatus` never cancel the
channel timer or clear the pending value, so a stale channel send reaches
the transport while disconnected. -/
theorem C2_counterexample :
    (liftingTimerFire (updateConnectionStatus false (queueLiftingSend 10 connectedState))).sent
      = [Send.lifting 10] ∧
    (updateConnectionStatus false (queueLiftingSend 10 connectedState)).isConnected = false := by
  decide

/-- C2, amended: the connected-and-usable gate applies only at submission
time (`queueLiftingSend` is a no-op otherwise); disconnect and usability
loss leave the armed channel timer and the pending value untouched, and on
expiry the pending value is sent with no connection or usability check. -/
theorem C2_gatingAtSubmitOnly :
    (∀ (v : ℤ) (s : AppState), s.isConnected = false ∨ s.controllerUsable = false →
        queueLiftingSend v s = s) ∧
    (∀ s : AppState,
        (updateConnectionStatus false s).liftingTimerArmed = s.liftingTimerArmed ∧
        (updateConnectionStatus false s).liftingPendingValue = s.liftingPendingValue ∧
        (updateControllerStatus false s).liftingTimerArmed = s.liftingTimerArmed ∧
        (updateControllerStatus false s).liftingPendingValue = s.liftingPendingValue) ∧
    (∀ (s : AppState) (v : ℤ), s.liftingTimerArmed = true → s.liftingPendingValue = some v →
        (liftingTimerFire s).sent = s.sent ++ [Send.lifting v] ∧
        (liftingTimerFire s).liftingPendingValue = none ∧
        (liftingTimerFire s).liftingTimerArmed = false) := by
  refine ⟨?_, ?_, ?_⟩
  · intro v s h
    rcases h with h | h <;> simp [queueLiftingSend, h]
  · intro s
    refine ⟨?_, ?_, ?_, ?_⟩ <;>
      simp [updateConnectionStatus, updateControllerStatus, stopPolling, startPolling,
        resetJoystick, addLog] <;>
      split <;> simp
  · intro s v ht hp
    simp [liftingTimerFire, ht, hp]

/-- Witness for C2_gatingAtSubmitOnly: a disconnected session with an
armed timer and pending value 9 still sends on expiry. -/
theorem C2_gatingAtSubmitOnly_witness :
    queueLiftingSend 7 disconnectedState = disconnectedState ∧
    (liftingTimerFire stalePendingState).sent = stalePendingState.sent ++ [Send.lifting 9] :=
  ⟨C2_gatingAtSubmitOnly.1 7 disconnectedState (Or.inl rfl),
   (C2_gatingAtSubmitOnly.2.2 stalePendingState 9 rfl rfl).1⟩

/-- C3: evaluation of the code's travel-radius computation at base width
200: the code yields `stickRadius = 11` and `maxRadius = 89`, while the
claim (and the comment in the code, which says the stick occupies 22 % of
the base width) requires `stickRadius = 0.11 × 200 = 22` and
`maxRadius = 200/2 − 0.11·200 = 78`. -/
theorem C3_maxRadius_eval :
    stickRadius 200 = 11 ∧ maxRadius 200 = 89 ∧
    ((200 : ℚ) / 2 - (11 / 100) * 200) = 78 ∧
    maxRadius 200 ≠ 200 / 2 - (11 / 100) * 200 := by
  refine ⟨by norm_num [stickRadius], by norm_num [maxRadius, stickRadius], by norm_num, ?_⟩
  norm_num [maxRadius, stickRadius]

/-- C4: three values submitted to the lifting channel within one open
debounce window while connected and usable produce no send during the
window and exactly one send, carrying the last value, on expiry. -/
theorem C4_coalescing (s : AppState) (v1 v2 v3 : ℤ)
    (hc : s.isConnected = true) (hu : s.controllerUsable = true)
    (ht : s.liftingTimerArmed = false) :
    (queueLiftingSend v3 (queueLiftingSend v2 (queueLiftingSend v1 s))).sent = s.sent ∧
    (liftingTimerFire (queueLiftingSend v3 (queueLiftingSend v2 (queueLiftingSend v1 s)))).sent
      = s.sent ++ [Send.lifting v3] ∧
    (liftingTimerFire (queueLiftingSend v3 (queueLiftingSend v2 (queueLiftingSend v1 s)))).liftingPendingValue
      = none := by
  refine ⟨?_, ?_, ?_⟩ <;> simp [queueLiftingSend, liftingTimerFire, hc, hu, ht]

/-- Witness for C4_coalescing at a concrete connected session. -/
theorem C4_coalescing_witness :
    (queueLiftingSend 3 (queueLiftingSend 2 (queueLiftingSend 1 connectedState))).sent
      = connectedState.sent ∧
    (liftingTimerFire (queueLiftingSend 3 (queueLiftingSend 2 (queueLiftingSend 1 connectedState)))).sent
      = connectedState.sent ++ [Send.lifting 3] :=
  ⟨(C4_coalescing connectedState 1 2 3 rfl rfl rfl).1,
   (C4_coalescing connectedState 1 2 3 rfl rfl rfl).2.1⟩

/-- C5: the axis encoder maps −1 to 0, 1 to 255, 0 to a center value in
{127, 128} (the code yields 128), always lands in [0, 255], and is
monotone non-decreasing over [−1, 1]. -/
theorem C5_encoder :
    positionToValue (-1) = 0 ∧ positionToValue 1 = 255 ∧
    (positionToValue 0 = 127 ∨ positionToValue 0 = 128) ∧
    (∀ p : ℚ, 0 ≤ positionToValue p ∧ positionToValue p ≤ 255) ∧
    (∀ p q : ℚ, -1 ≤ p → p ≤ q → q ≤ 1 → positionToValue p ≤ positionToValue q) := by
  refine ⟨by norm_num [positionToValue], by norm_num [positionToValue, round_eq],
    Or.inr (by norm_num [positionToValue, round_eq]), ?_, ?_⟩
  · intro p
    refine ⟨le_max_left _ _, max_le (by norm_num) (min_le_left _ _)⟩
  · intro p q _ hpq _
    unfold positionToValue
    have hr : round ((p + 1) * (255 / 2)) ≤ round ((q + 1) * (255 / 2)) := by
      rw [round_eq, round_eq]
      exact Int.floor_mono (by linarith)
    exact max_le_max le_rfl (min_le_min le_rfl hr)

/-- Witness for C5_encoder: monotonicity applied at −1 ≤ 0. -/
theorem C5_encoder_witness : positionToValue (-1) ≤ positionToValue 0 :=
  C5_encoder.2.2.2.2 (-1) 0 (by norm_num) (by norm_num) (by norm_num)

/-- C6: a grab command invoked while disconnected makes no transport call
and logs a warning; while connected it sends regardless of
`controllerUsable` (usability is not consulted); and the 120 ms
per-control debounce accepts exactly one of two invocations of the same
control that are less than 120 ms apart. -/
theorem C6_commandGating :
    (∀ s : AppState, s.isConnected = false →
        (grabArm s).sent = s.sent ∧ (grabArm s).logs = s.logs ++ [LogType.warning]) ∧
    (∀ s : AppState, s.isConnected = true →
        (grabArm s).sent = s.sent ++ [Send.armCommand ArmCommand.grab]) ∧
    (∀ lastTime t1 t2 : ℤ, DEBOUNCE_MS ≤ t1 - lastTime → t1 ≤ t2 → t2 - t1 < DEBOUNCE_MS →
        (doActionStep t1 lastTime).1 = true ∧
        (doActionStep t2 (doActionStep t1 lastTime).2).1 = false) := by
  refine ⟨?_, ?_, ?_⟩
  · intro s h
    simp [grabArm, h, addLog]
  · intro s h
    simp [grabArm, h, addLog]
  · intro lastTime t1 t2 h1 h2 h3
    have hfire : doActionStep t1 lastTime = (true, t1) := by
      simp only [doActionStep, DEBOUNCE_MS] at *
      rw [if_neg (by omega)]
    refine ⟨by rw [hfire], ?_⟩
    rw [hfire]
    simp only [doActionStep, DEBOUNCE_MS] at *
    rw [if_pos (by omega)]

/-- Witness for C6_commandGating: a disconnected session logs a warning
and sends nothing; invocations at t = 200 and t = 260 fire once. -/
theorem C6_commandGating_witness :
    (grabArm disconnectedState).sent = disconnectedState.sent ∧
    (doActionStep 200 0).1 = true ∧ (doActionStep 260 (doActionStep 200 0).2).1 = false :=
  ⟨(C6_commandGating.1 disconnectedState rfl).1,
   (C6_commandGating.2.2 0 200 260 (by decide) (by decide) (by decide)).1,
   (C6_commandGating.2.2 0 200 260 (by decide) (by decide) (by decide)).2⟩

/-- C7: a failed usability poll on a connected session forces
`controllerUsable` to false and changes nothing about the link:
`isConnected` and the poll loop are untouched, no transport call and no
log entry is made, and the lifting channel state and touch bookkeeping are
preserved; only the usability flag and its dependents (the send interval
and the recentered axes) change. -/
theorem C7_pollFailurePreservesLink (s : AppState) (h : s.isConnected = true) :
    (pollControllerStatus none s).controllerUsable = false ∧
    (pollControllerStatus none s).isConnected = s.isConnected ∧
    (pollControllerStatus none s).pollActive = s.pollActive ∧
    (pollControllerStatus none s).sent = s.sent ∧
    (pollControllerStatus none s).logs = s.logs ∧
    (pollControllerStatus none s).liftingPendingValue = s.liftingPendingValue ∧
    (pollControllerStatus none s).liftingTimerArmed = s.liftingTimerArmed ∧
    (pollControllerStatus none s).primaryTouchId = s.primaryTouchId ∧
    (pollControllerStatus none s).activeTouches = s.activeTouches ∧
    (pollControllerStatus none s).joystickActive = s.joystickActive ∧
    (pollControllerStatus none s).sendActive = false ∧
    (pollControllerStatus none s).currentX = JOYSTICK_ZERO_VALUE ∧
    (pollControllerStatus none s).currentY = JOYSTICK_ZERO_VALUE := by
  simp [pollControllerStatus, h, updateControllerStatus, resetJoystick]

/-- Witness for C7_pollFailurePreservesLink at a concrete connected
session. -/
theorem C7_pollFailurePreservesLink_witness :
    (pollControllerStatus none connectedState).controllerUsable = false ∧
    (pollControllerStatus none connectedState).isConnected = connectedState.isConnected :=
  ⟨(C7_pollFailurePreservesLink connectedState rfl).1,
   (C7_pollFailurePreservesLink connectedState rfl).2.1⟩

/-- Evaluation of the real-valued encoder at full deflection. -/
theorem positionToValueReal_one : positionToValueReal 1 = 255 := by
  unfold positionToValueReal
  have h : ((1:ℝ) + 1) * (255 / 2) = 255 := by norm_num
  rw [h]
  have hr : round ((255:ℝ)) = 255 := by
    rw [round_eq, Int.floor_eq_iff]
    norm_num
  rw [hr]; decide

/-- Evaluation of the real-valued encoder at the center. -/
theorem positionToValueReal_zero : positionToValueReal 0 = 128 := by
  unfold positionToValueReal
  have h : ((0:ℝ) + 1) * (255 / 2) = 255 / 2 := by norm_num
  rw [h]
  have hr : round ((255:ℝ) / 2) = 128 := by
    rw [round_eq, Int.floor_eq_iff]
    norm_num
  rw [hr]; decide

/-- Evaluation of the geometry at the point (201, 100), just right of the
200×200 base rect: clamped to the rim, encoding to (255, 128). -/
theorem joystickAxesFrom_outside :
    joystickAxesFrom baseRect 201 100 = (255, 128) := by
  unfold joystickAxesFrom atan2 baseRect
  have e1 : ((201:ℚ) - (0 + 200 / 2)) = 101 := by norm_num
  have e2 : ((100:ℚ) - (0 + 200 / 2)) = 0 := by norm_num
  have e3 : (maxRadius 200 : ℚ) = 89 := by norm_num [maxRadius, stickRadius]
  simp only [e1, e2, e3]
  push_cast
  have hs : Real.sqrt ((101:ℝ) * 101 + 0 * 0) = 101 := by
    have h : (101:ℝ) * 101 + 0 * 0 = 101 ^ 2 := by norm_num
    rw [h, Real.sqrt_sq (by norm_num : (0:ℝ) ≤ 101)]
  rw [hs]
  rw [if_pos (by norm_num : (89:ℝ) < 101)]
  rw [if_pos (by norm_num : (89:ℝ) < 101)]
  have harg : Complex.arg ⟨(101:ℝ), (0:ℝ)⟩ = 0 := by
    rw [Complex.arg_eq_zero_iff]
    exact ⟨by norm_num, rfl⟩
  rw [harg, Real.cos_zero, Real.sin_zero]
  have hx : (1:ℝ) * 89 / 89 = 1 := by norm_num
  have hy : (0:ℝ) * 89 / 89 = 0 := by norm_num
  rw [hx, hy, positionToValueReal_one, positionToValueReal_zero]

/-- The point (201, 100) fails the joystick hit test on the 200×200 rect. -/
theorem isTouchInJoystick_out201 : isTouchInJoystick baseRect 201 100 = false := by
  norm_num [isTouchInJoystick, baseRect, Rect.right, Rect.bottom]

/-- The point (100, 150) passes the joystick hit test on the 200×200 rect. -/
theorem isTouchInJoystick_in100150 : isTouchInJoystick baseRect 100 150 = true := by
  norm_num [isTouchInJoystick, baseRect, Rect.right, Rect.bottom]

/-- The point (300, 100) fails the joystick hit test on the 200×200 rect. -/
theorem isTouchInJoystick_out300 : isTouchInJoystick baseRect 300 100 = false := by
  norm_num [isTouchInJoystick, baseRect, Rect.right, Rect.bottom]

/-- C8, counterexample: when the primary contact moves to (201, 100),
outside the 200×200 joystick rect, `handleTouchMove` leaves the axes at
their previous value (127, 127) although recomputation from the new
position would give (255, 128) — the axes are not recomputed "regardless
of whether that position lies inside the joystick region": the move
handler re-applies the hit test. -/
theorem C8_counterexample :
    (handleTouchMove baseRect [⟨1, 201, 100⟩] primaryState).currentX = 127 ∧
    (handleTouchMove baseRect [⟨1, 201, 100⟩] primaryState).currentY = 127 ∧
    joystickAxesFrom baseRect 201 100 = (255, 128) ∧
    ((255 : ℤ) ≠ 127) := by
  refine ⟨?_, ?_, joystickAxesFrom_outside, by decide⟩ <;>
    simp [handleTouchMove, primaryState, releasedState, List.find?, isTouchInJoystick_out201]

/-- C8, amended: qualification as primary is decided once, at contact
start, by the hit test, and a move never changes the primary assignment;
but on a move of the primary contact the axes are recomputed only when
the new position again lies inside the joystick rect — a move outside the
rect leaves the axes unchanged. -/
theorem C8_primaryFixedAtStart :
    (∀ (r : Rect) (ts : List Touch) (s : AppState),
        (handleTouchMove r ts s).primaryTouchId = s.primaryTouchId) ∧
    (∀ (r : Rect) (ts : List Touch) (s : AppState) (pid : ℕ) (t : Touch),
        s.primaryTouchId = some pid → s.joystickActive = true →
        ts.find? (fun u => u.identifier == pid) = some t →
        handleTouchMove r ts s =
          if isTouchInJoystick r t.clientX t.clientY then
            handleJoystickMove r t.clientX t.clientY s
          else s) ∧
    (∀ (r : Rect) (ts : List Touch) (s : AppState) (t : Touch),
        s.primaryTouchId = none →
        ts.find? (fun u => isTouchInJoystick r u.clientX u.clientY) = some t →
        (handleTouchStart r ts s).primaryTouchId = some t.identifier ∧
        (handleTouchStart r ts s).currentX = (joystickAxesFrom r t.clientX t.clientY).1 ∧
        (handleTouchStart r ts s).currentY = (joystickAxesFrom r t.clientX t.clientY).2) := by
  refine ⟨?_, ?_, ?_⟩
  · intro r ts s
    unfold handleTouchMove
    cases hp : s.primaryTouchId with
    | none => exact hp
    | some pid =>
      by_cases hj : s.joystickActive
      · simp only [hj, if_true]
        cases hf : ts.find? (fun t => t.identifier == pid) with
        | none => exact hp
        | some t =>
          by_cases hin : isTouchInJoystick r t.clientX t.clientY <;>
            simp [hin, handleJoystickMove, hp]
      · simp [hj, hp]
  · intro r ts s pid t hp hj hf
    unfold handleTouchMove
    rw [hp]
    simp only [hj, if_true, hf]
  · intro r ts s t hp hf
    unfold handleTouchStart
    have hreg := registerTouches_frame r ts s
    rw [hreg, hp]
    simp only [hf]
    simp [startJoystick, handleJoystickMove]

/-- Witness for C8_primaryFixedAtStart: the move branch at a concrete
primary touch. -/
theorem C8_primaryFixedAtStart_witness :
    handleTouchMove baseRect [⟨1, 120, 100⟩] primaryState =
      (if isTouchInJoystick baseRect (120:ℚ) (100:ℚ) then
        handleJoystickMove baseRect 120 100 primaryState
      else primaryState) :=
  C8_primaryFixedAtStart.2.1 baseRect [⟨1, 120, 100⟩] primaryState 1 ⟨1, 120, 100⟩ rfl rfl rfl

/-- C9, counterexample: touch 2 qualified at contact start (its start
position (100, 150) passed the hit test, it is registered in
`activeTouches`) and is still active at current position (300, 100) when
primary touch 1 ends; yet `handleTouchEnd` promotes nobody (the promotion
scan re-hit-tests the current position, which is outside) and the axes
are recentered to 127 — both the promised promotion and the absence of a
center sample fail. -/
theorem C9_counterexample :
    isTouchInJoystick baseRect 100 150 = true ∧
    handoffState.activeTouches = [(1, 100, 100), (2, 100, 150)] ∧
    handoffState.primaryTouchId = some 1 ∧
    (handleTouchEnd baseRect [⟨1, 100, 100⟩] [⟨2, 300, 100⟩] handoffState).primaryTouchId = none ∧
    (handleTouchEnd baseRect [⟨1, 100, 100⟩] [⟨2, 300, 100⟩] handoffState).currentX = 127 ∧
    ((none : Option ℕ) ≠ some 2) := by
  refine ⟨isTouchInJoystick_in100150, rfl, rfl, ?_, ?_, by decide⟩ <;>
    simp [handleTouchEnd, List.foldl, endOneTouch, promoteRemaining, List.find?,
      isTouchInJoystick_out300, handoffState, primaryState, releasedState, deleteTouch,
      stopJoystick, resetJoystick, JOYSTICK_ZERO_VALUE]

/-- C9, amended: when the primary contact ends and the first remaining
touch of the event's touches list currently positioned inside the
joystick rect exists, it is promoted to primary within the same handler
invocation and its axes are recomputed immediately — the post-state of
the batch carries the promoted touch's axes, so no center sample is
externally observable; the scan uses the current position, not the
qualification recorded at contact start. -/
theorem C9_handoffPromotion (r : Rect) (s : AppState) (tA tB : Touch) (rest : List Touch)
    (hp : s.primaryTouchId = some tA.identifier)
    (hin : isTouchInJoystick r tB.clientX tB.clientY = true) :
    (handleTouchEnd r [tA] (tB :: rest) s).primaryTouchId = some tB.identifier ∧
    (handleTouchEnd r [tA] (tB :: rest) s).currentX = (joystickAxesFrom r tB.clientX tB.clientY).1 ∧
    (handleTouchEnd r [tA] (tB :: rest) s).currentY = (joystickAxesFrom r tB.clientX tB.clientY).2 ∧
    (handleTouchEnd r [tA] (tB :: rest) s).joystickActive = true := by
  unfold handleTouchEnd
  simp only [List.foldl]
  unfold endOneTouch
  simp only [hp, if_true]
  unfold promoteRemaining
  simp only [List.find?, hin]
  by_cases hj : s.joystickActive <;>
    simp [stopJoystick, hj, resetJoystick, startJoystick, handleJoystickMove]

/-- Witness for C9_handoffPromotion: primary touch 1 ends while touch 2
sits at (120, 100) inside the rect; touch 2 becomes primary with its axes
recomputed. -/
theorem C9_handoffPromotion_witness :
    (handleTouchEnd baseRect [⟨1, 100, 100⟩] [⟨2, 120, 100⟩] primaryState).primaryTouchId = some 2 ∧
    (handleTouchEnd baseRect [⟨1, 100, 100⟩] [⟨2, 120, 100⟩] primaryState).currentX
      = (joystickAxesFrom baseRect 120 100).1 :=
  ⟨(C9_handoffPromotion baseRect primaryState ⟨1, 100, 100⟩ ⟨2, 120, 100⟩ [] rfl
      (by norm_num [isTouchInJoystick, baseRect, Rect.right, Rect.bottom])).1,
   (C9_handoffPromotion baseRect primaryState ⟨1, 100, 100⟩ ⟨2, 120, 100⟩ [] rfl
      (by norm_num [isTouchInJoystick, baseRect, Rect.right, Rect.bottom])).2.1⟩

/-- C10: joystick presses and moves update `currentX`/`currentY` from the
pointer position for every state — in particular when disconnected or
unusable — and make no transport call; regaining usability
(`updateControllerStatus(true)`) does not recenter the captured axes, and
the next firing of the send interval transmits them (given the session is
connected). -/
theorem C10_inputNotGated (r : Rect) (cx cy : ℚ) (s : AppState) :
    (startJoystick r cx cy s).currentX = (joystickAxesFrom r cx cy).1 ∧
    (startJoystick r cx cy s).currentY = (joystickAxesFrom r cx cy).2 ∧
    (startJoystick r cx cy s).sent = s.sent ∧
    (s.joystickActive = true →
      (moveJoystick r cx cy s).currentX = (joystickAxesFrom r cx cy).1 ∧
      (moveJoystick r cx cy s).sent = s.sent) ∧
    (updateControllerStatus true s).currentX = s.currentX ∧
    (updateControllerStatus true s).currentY = s.currentY ∧
    (s.isConnected = true →
      (sendTick (updateControllerStatus true s)).sent
        = s.sent ++ [Send.joystick s.currentX s.currentY]) := by
  refine ⟨rfl, rfl, rfl, ?_, ?_, ?_, ?_⟩
  · intro hj
    constructor <;> simp [moveJoystick, hj, handleJoystickMove]
  · simp [updateControllerStatus]
  · simp [updateControllerStatus]
  · intro hc
    simp [sendTick, updateControllerStatus, sendJoystickData, hc]

/-- Witness for C10_inputNotGated: a connected but unusable session still
captures axes on press, and after usability returns the next tick sends
them. -/
theorem C10_inputNotGated_witness :
    (startJoystick baseRect 10 20 unusableState).currentX = (joystickAxesFrom baseRect 10 20).1 ∧
    (sendTick (updateControllerStatus true unusableState)).sent
      = unusableState.sent ++ [Send.joystick unusableState.currentX unusableState.currentY] :=
  ⟨(C10_inputNotGated baseRect 10 20 unusableState).1,
   (C10_inputNotGated baseRect 10 20 unusableState).2.2.2.2.2.2 rfl⟩
